import Mathlib

/-!
Shallow embedding of `src/s3_optimizer.py` (class `S3LifecycleOptimizer` and
the `main` dispatcher).

Modelling conventions:
* Python floats are modelled as exact rationals (`ℚ`); the claims are
  arithmetic identities stated over the program's formulas.
* Python strings are Lean `String`s; `str.lower()` is modelled by mapping
  `Char.toLower` over the characters (bucket names and the matched patterns
  are ASCII, where the two agree), and the `in` substring test is the
  executable `hasSubstr` below.
* Provider calls (boto3 S3 / CloudWatch) are modelled by their possible
  responses: an inductive that is either a successful payload or an error,
  so that the error-handling branches of the source are explicit.
* `round(x, 2)` is Python's round-half-to-even at two decimals, `pyRound2`.
-/

/-- Character-list version of `String.isPrefixOf`, written out so that every
matching step is kernel-reducible. -/
def leadsWith : List Char → List Char → Bool
  | [], _ => true
  | _ :: _, [] => false
  | p :: ps, c :: cs => p == c && leadsWith ps cs

/-- Does `pat` occur as a contiguous run inside the character list? Mirrors
Python's `pat in s` (the empty pattern occurs in every string). -/
def containsChars (pat : List Char) : List Char → Bool
  | [] => pat.isEmpty
  | c :: cs => leadsWith pat (c :: cs) || containsChars pat cs

/-- Python `pat in s` on strings. -/
def hasSubstr (s pat : String) : Bool :=
  containsChars pat.data s.data

/-- Python `s.lower()` (ASCII case folding, which agrees with Python on the
bucket names and patterns the program matches). -/
def pyLower (s : String) : String :=
  String.mk (s.data.map Char.toLower)

/-- Python `int(q)`: truncation toward zero. -/
def pyInt (q : ℚ) : ℤ :=
  if 0 ≤ q then ⌊q⌋ else ⌈q⌉

/-- Python `round` to the nearest integer, ties to even. -/
def roundHalfEven (q : ℚ) : ℤ :=
  if q - ⌊q⌋ < 1 / 2 then ⌊q⌋
  else if 1 / 2 < q - ⌊q⌋ then ⌊q⌋ + 1
  else if ⌊q⌋ % 2 = 0 then ⌊q⌋ else ⌊q⌋ + 1

/-- Python `round(q, 2)`. -/
def pyRound2 (q : ℚ) : ℚ :=
  ((roundHalfEven (q * 100) : ℤ) : ℚ) / 100

/-- The loaded configuration: `self.config['analysis']['storage_costs']`,
a map from storage-class name to cost per GB per month. -/
structure Config where
  storage_costs : String → ℚ

/-- One `(days, storage_class)` transition of a recommendation. -/
structure Transition where
  days : ℕ
  storage_class : String
deriving DecidableEq

/-- The recommendation dict built by `recommend_lifecycle_policy`. -/
structure Recommendation where
  strategy : String
  transitions : List Transition
  estimated_cost : ℚ
  savings_percentage : ℕ
deriving DecidableEq

/-- Possible outcomes of `s3_client.get_bucket_lifecycle_configuration`:
a successful response whose `Rules` key may be absent, the
`NoSuchLifecycleConfiguration` error, or any other exception (with its
message). The rules themselves are provider-defined and uninterpreted. -/
inductive LifecycleResponse where
  | ok : Option (List String) → LifecycleResponse
  | noSuchConfiguration : LifecycleResponse
  | otherError : String → LifecycleResponse
deriving DecidableEq

/-- `get_bucket_lifecycle`: `response.get('Rules', [])` on success, `None` on
`NoSuchLifecycleConfiguration`, and `None` (after logging) on any other
exception. -/
def get_bucket_lifecycle : LifecycleResponse → Option (List String)
  | .ok rulesOpt => some (rulesOpt.getD [])
  | .noSuchConfiguration => none
  | .otherError _ => none

/-- Possible outcomes of a `cloudwatch.get_metric_statistics` call over the
2-day lookback window: the list of datapoint averages (possibly empty), or
an exception. -/
inductive MetricResponse where
  | ok : List ℚ → MetricResponse
  | err : String → MetricResponse
deriving DecidableEq

/-- `get_bucket_size`: the first datapoint's `Average` if any, `0` when the
datapoint list is empty, `0` on any exception. -/
def get_bucket_size : MetricResponse → ℚ
  | .ok (d :: _) => d
  | .ok [] => 0
  | .err _ => 0

/-- `get_bucket_object_count`: `int(...)` of the first datapoint's `Average`
if any, `0` when the datapoint list is empty, `0` on any exception. -/
def get_bucket_object_count : MetricResponse → ℤ
  | .ok (d :: _) => pyInt d
  | .ok [] => 0
  | .err _ => 0

/-- `calculate_current_cost(size_bytes, storage_class='standard')`. -/
def calculate_current_cost (cfg : Config) (size_bytes : ℚ) (storage_class : String) : ℚ :=
  let size_gb := size_bytes / 1024 ^ 3
  let cost_per_gb := cfg.storage_costs storage_class
  size_gb * cost_per_gb

/-- The `if/elif/else` chain of `recommend_lifecycle_policy` that picks the
recommendation dict from the (already lowercased-by-caller) bucket name. -/
def chooseStrategy (bucket_name : String) (size_gb : ℚ) : Recommendation :=
  if hasSubstr (pyLower bucket_name) "log" || hasSubstr (pyLower bucket_name) "backup" then
    { strategy := "Intelligent-Tiering + Glacier"
      transitions := [⟨30, "INTELLIGENT_TIERING"⟩, ⟨90, "GLACIER_IR"⟩]
      estimated_cost := size_gb * 0.004
      savings_percentage := 83 }
  else if hasSubstr (pyLower bucket_name) "archive" then
    { strategy := "Deep Archive"
      transitions := [⟨0, "DEEP_ARCHIVE"⟩]
      estimated_cost := size_gb * 0.00099
      savings_percentage := 96 }
  else
    { strategy := "Intelligent-Tiering"
      transitions := [⟨30, "INTELLIGENT_TIERING"⟩]
      estimated_cost := size_gb * 0.0025
      savings_percentage := 89 }

/-- `recommend_lifecycle_policy(bucket_name, size_bytes, object_count)`:
returns the pair `(recommendation | None, savings)`.  `object_count` is a
parameter of the source function but is not used by it. -/
def recommend_lifecycle_policy (cfg : Config) (bucket_name : String)
    (size_bytes : ℚ) (object_count : ℤ) : Option Recommendation × ℚ :=
  let size_gb := size_bytes / 1024 ^ 3
  if size_gb < 1 then (none, 0)
  else
    let current_cost := calculate_current_cost cfg size_bytes "standard"
    let recommendation := chooseStrategy bucket_name size_gb
    (some recommendation, current_cost - recommendation.estimated_cost)

/-- The per-bucket provider responses one audit iteration observes. -/
structure BucketData where
  name : String
  lifecycleResp : LifecycleResponse
  sizeResp : MetricResponse
  countResp : MetricResponse
deriving DecidableEq

/-- One row of `audit_results` as appended by `audit_buckets`. -/
structure AuditRecord where
  bucket_name : String
  size_gb : ℚ
  object_count : ℤ
  has_lifecycle : Bool
  current_cost : ℚ
  recommendation : String
  potential_savings : ℚ
deriving DecidableEq

/-- The running totals `audit_buckets` accumulates for its summary. -/
structure AuditTotals where
  total_size : ℚ
  total_cost : ℚ
  total_savings : ℚ
  buckets_without_lifecycle : ℕ
deriving DecidableEq

/-- Everything one iteration of the `audit_buckets` loop body produces:
the appended record, the `recommendation`/`savings` pair after the gated
call, whether `buckets_without_lifecycle` was incremented (`counted`), the
amount added to `total_savings`, and the per-bucket size/cost added to the
other totals. -/
structure StepResult where
  record : AuditRecord
  recOpt : Option Recommendation
  counted : Bool
  savings_added : ℚ
  size_bytes : ℚ
  current_cost : ℚ
deriving DecidableEq

/-- The body of the `for bucket in buckets` loop of `audit_buckets`. -/
def processBucket (cfg : Config) (b : BucketData) : StepResult :=
  let lifecycle := get_bucket_lifecycle b.lifecycleResp
  let has_lifecycle := lifecycle.isSome
  let size_bytes := get_bucket_size b.sizeResp
  let object_count := get_bucket_object_count b.countResp
  let size_gb := size_bytes / 1024 ^ 3
  let current_cost := calculate_current_cost cfg size_bytes "standard"
  let recSav : Option Recommendation × ℚ :=
    if !has_lifecycle && decide (1 < size_gb) then
      recommend_lifecycle_policy cfg b.name size_bytes object_count
    else (none, 0)
  { record :=
      { bucket_name := b.name
        size_gb := pyRound2 size_gb
        object_count := object_count
        has_lifecycle := has_lifecycle
        current_cost := pyRound2 current_cost
        recommendation := match recSav.1 with
          | some r => r.strategy
          | none => "N/A"
        potential_savings := pyRound2 recSav.2 }
    recOpt := recSav.1
    counted := recSav.1.isSome
    savings_added := if recSav.1.isSome then recSav.2 else 0
    size_bytes := size_bytes
    current_cost := current_cost }

/-- The audit loop of `audit_buckets`, threading the running totals and
appending one record per bucket in listing order. -/
def auditLoop (cfg : Config) : List BucketData → AuditTotals → List AuditRecord × AuditTotals
  | [], t => ([], t)
  | b :: rest, t =>
    let s := processBucket cfg b
    let t' : AuditTotals :=
      { total_size := t.total_size + s.size_bytes
        total_cost := t.total_cost + s.current_cost
        total_savings := t.total_savings + s.savings_added
        buckets_without_lifecycle :=
          t.buckets_without_lifecycle + (if s.counted then 1 else 0) }
    let rt := auditLoop cfg rest t'
    (s.record :: rt.1, rt.2)

/-- `audit_buckets`: every total starts at zero; returns the record list
(the function's return value) together with the summary totals it prints. -/
def audit_buckets (cfg : Config) (buckets : List BucketData) :
    List AuditRecord × AuditTotals :=
  auditLoop cfg buckets ⟨0, 0, 0, 0⟩

/-- One rule object of the generated lifecycle policy JSON: `Id`, `Status`,
and the single `(Days, StorageClass)` transition. -/
structure PolicyRule where
  id : String
  status : String
  transitions : List (ℕ × String)
deriving DecidableEq

/-- The `{'Rules': [...]}` document returned by `generate_lifecycle_policy`. -/
structure PolicyDocument where
  Rules : List PolicyRule
deriving DecidableEq

/-- The `for i, transition in enumerate(...)` loop of
`generate_lifecycle_policy`: `i` is the running 0-based index. -/
def buildRules : ℕ → List Transition → List PolicyRule
  | _, [] => []
  | i, t :: ts =>
    { id := "OptimizationRule" ++ toString (i + 1)
      status := "Enabled"
      transitions := [(t.days, t.storage_class)] } :: buildRules (i + 1) ts

/-- `generate_lifecycle_policy(recommendation)`. -/
def generate_lifecycle_policy (recommendation : Recommendation) : PolicyDocument :=
  { Rules := buildRules 0 recommendation.transitions }

/-- The provider state `apply_lifecycle_policy` can touch: the lifecycle
configuration stored per bucket, plus whether the put call raises. -/
structure ProviderState where
  lifecycles : List (String × PolicyDocument)
  putFails : Bool
deriving DecidableEq

/-- `s3_client.put_bucket_lifecycle_configuration`: either raises (no state
change) or records the new configuration for the bucket. -/
def put_bucket_lifecycle_configuration (st : ProviderState) (bucket : String)
    (policy : PolicyDocument) : Option ProviderState :=
  if st.putFails then none
  else some { st with lifecycles := (bucket, policy) :: st.lifecycles }

/-- `apply_lifecycle_policy(bucket_name, policy, dry_run=True)`: returns the
success flag together with the provider state after the call. -/
def apply_lifecycle_policy (st : ProviderState) (bucket_name : String)
    (policy : PolicyDocument) (dry_run : Bool) : Bool × ProviderState :=
  if dry_run then (true, st)
  else
    match put_bucket_lifecycle_configuration st bucket_name policy with
    | some st' => (true, st')
    | none => (false, st)

/-- The `--mode` choices of the command-line parser. -/
inductive Mode where
  | audit
  | recommend
  | apply
deriving DecidableEq

/-- The parsed command-line arguments `main` dispatches on (`--config` is
consumed before dispatch by constructing the optimizer). -/
structure CliArgs where
  mode : Mode
  output : Option String
  bucket : Option String
  dry_run : Bool
deriving DecidableEq

/-- The observable outcome of one `main` run: the audit results computed (if
any), what was exported to which CSV path (if any), and whether the
`apply`-mode stub message was printed. -/
structure RunOutcome where
  results : Option (List AuditRecord × AuditTotals)
  exported : Option (String × List AuditRecord)
  applyStub : Bool
deriving DecidableEq

/-- The mode dispatch at the bottom of `main`. -/
def main_dispatch (cfg : Config) (buckets : List BucketData) (args : CliArgs) :
    RunOutcome :=
  match args.mode with
  | .audit =>
    let results := audit_buckets cfg buckets
    { results := some results
      exported := args.output.map fun path => (path, results.1)
      applyStub := false }
  | .recommend =>
    let results := audit_buckets cfg buckets
    { results := some results
      exported := args.output.map fun path => (path, results.1)
      applyStub := false }
  | .apply =>
    { results := none
      exported := none
      applyStub := true }

/-- The gate under which the audit loop calls `recommend_lifecycle_policy`:
`not has_lifecycle and size_gb > 1`. -/
def bucketQualifies (b : BucketData) : Bool :=
  !(get_bucket_lifecycle b.lifecycleResp).isSome
    && decide (1 < get_bucket_size b.sizeResp / 1024 ^ 3)

/-- The per-GB unit cost of the strategy `chooseStrategy` matches for a name,
as the spec states it (0.004, 0.00099 or 0.0025 per GB). -/
def unitCost (bucket_name : String) : ℚ :=
  if hasSubstr (pyLower bucket_name) "log" || hasSubstr (pyLower bucket_name) "backup" then 0.004
  else if hasSubstr (pyLower bucket_name) "archive" then 0.00099
  else 0.0025

/-- The fixed savings-percentage label of the strategy matched for a name
(83, 96 or 89), determined by the name alone. -/
def savingsLabel (bucket_name : String) : ℕ :=
  if hasSubstr (pyLower bucket_name) "log" || hasSubstr (pyLower bucket_name) "backup" then 83
  else if hasSubstr (pyLower bucket_name) "archive" then 96
  else 89

/-- A sample configuration for concrete witnesses: the standard S3 rate. -/
def sampleConfig : Config :=
  ⟨fun _ => 0.023⟩

/-- A sample bucket that has a lifecycle policy configured. -/
def sampleLifecycleBucket : BucketData :=
  ⟨"managed-logs", .ok (some ["existing-rule"]), .ok [2 ^ 31], .ok [10]⟩

/-- A sample bucket of exactly 1 GB with no lifecycle policy. -/
def boundaryBucket : BucketData :=
  ⟨"logs-at-threshold", .noSuchConfiguration, .ok [2 ^ 30], .ok []⟩

/-- A sample recommendation (the generic intelligent-tiering one at 1 GB). -/
def sampleRecommendation : Recommendation :=
  ⟨"Intelligent-Tiering", [⟨30, "INTELLIGENT_TIERING"⟩], 0.0025, 89⟩

lemma gb_cube : ((1024 : ℚ) ^ 3) = 2 ^ 30 := by norm_num

lemma size_gb_not_lt_one {size : ℚ} (h : (2 : ℚ) ^ 30 ≤ size) :
    ¬ size / 1024 ^ 3 < 1 := by
  rw [not_lt, le_div_iff₀ (by positivity), gb_cube]
  linarith

lemma recommend_of_ge (cfg : Config) (name : String) (size : ℚ) (oc : ℤ)
    (h : (2 : ℚ) ^ 30 ≤ size) :
    recommend_lifecycle_policy cfg name size oc =
      (some (chooseStrategy name (size / 1024 ^ 3)),
       calculate_current_cost cfg size "standard"
         - (chooseStrategy name (size / 1024 ^ 3)).estimated_cost) := by
  simp only [recommend_lifecycle_policy]
  rw [if_neg (size_gb_not_lt_one h)]

lemma recommend_fst_isSome (cfg : Config) (name : String) (size : ℚ) (oc : ℤ)
    (h : (2 : ℚ) ^ 30 ≤ size) :
    ((recommend_lifecycle_policy cfg name size oc).1).isSome = true := by
  rw [recommend_of_ge cfg name size oc h]
  rfl

/-- C1: for every bucket name and size of at least 1 GB (2^30 bytes),
`recommend_lifecycle_policy` classifies by case-insensitive substring match
on the name in precedence order log/backup, then archive, then generic, with
exactly the stated transitions and per-GB unit costs. -/
theorem recommend_classification (cfg : Config) (name : String) (size : ℚ) (oc : ℤ)
    (h : (2 : ℚ) ^ 30 ≤ size) :
    (recommend_lifecycle_policy cfg name size oc).1 =
      some (if hasSubstr (pyLower name) "log" || hasSubstr (pyLower name) "backup" then
              { strategy := "Intelligent-Tiering + Glacier"
                transitions := [⟨30, "INTELLIGENT_TIERING"⟩, ⟨90, "GLACIER_IR"⟩]
                estimated_cost := size / 2 ^ 30 * 0.004
                savings_percentage := 83 }
            else if hasSubstr (pyLower name) "archive" then
              { strategy := "Deep Archive"
                transitions := [⟨0, "DEEP_ARCHIVE"⟩]
                estimated_cost := size / 2 ^ 30 * 0.00099
                savings_percentage := 96 }
            else
              { strategy := "Intelligent-Tiering"
                transitions := [⟨30, "INTELLIGENT_TIERING"⟩]
                estimated_cost := size / 2 ^ 30 * 0.0025
                savings_percentage := 89 }) := by
  rw [recommend_of_ge cfg name size oc h]
  simp only [chooseStrategy]
  split_ifs <;> simp [Recommendation.mk.injEq, gb_cube]

/-- C1 witness: a 2 GB bucket named "prod-logs" is classified by the
log/backup rule. -/
theorem recommend_classification_witness :
    (recommend_lifecycle_policy sampleConfig "prod-logs" (2 ^ 31) 0).1 =
      some { strategy := "Intelligent-Tiering + Glacier"
             transitions := [⟨30, "INTELLIGENT_TIERING"⟩, ⟨90, "GLACIER_IR"⟩]
             estimated_cost := (2 : ℚ) ^ 31 / 2 ^ 30 * 0.004
             savings_percentage := 83 } := by
  rw [recommend_classification sampleConfig "prod-logs" (2 ^ 31) 0 (by norm_num)]
  rw [if_pos (by decide)]

/-- C2: for every bucket name and size strictly below 2^30 bytes,
`recommend_lifecycle_policy` returns no recommendation and zero savings. -/
theorem recommend_below_threshold (cfg : Config) (name : String) (size : ℚ) (oc : ℤ)
    (h : size < (2 : ℚ) ^ 30) :
    recommend_lifecycle_policy cfg name size oc = (none, 0) := by
  have hc : size / 1024 ^ 3 < 1 := by
    rw [div_lt_one (by positivity), gb_cube]
    exact h
  simp only [recommend_lifecycle_policy]
  rw [if_pos hc]

/-- C2 witness: a half-GB bucket gets no recommendation even with a matching
name. -/
theorem recommend_below_threshold_witness :
    recommend_lifecycle_policy sampleConfig "tiny-backup" (2 ^ 29) 0 = (none, 0) :=
  recommend_below_threshold sampleConfig "tiny-backup" (2 ^ 29) 0 (by norm_num)

lemma chooseStrategy_estimated_cost (name : String) (g : ℚ) :
    (chooseStrategy name g).estimated_cost = g * unitCost name := by
  simp only [chooseStrategy, unitCost]
  split_ifs <;> rfl

lemma chooseStrategy_savings_percentage (name : String) (g : ℚ) :
    (chooseStrategy name g).savings_percentage = savingsLabel name := by
  simp only [chooseStrategy, savingsLabel]
  split_ifs <;> rfl

/-- C4: for every qualifying bucket (size at least 1 GB), the savings value
returned by `recommend_lifecycle_policy` equals the current cost (size in GB
times the configured standard rate) minus size in GB times the matched
strategy's per-GB unit cost, while the recorded `savings_percentage` is the
fixed per-strategy constant determined only by the name match. -/
theorem recommend_savings_formula (cfg : Config) (name : String) (size : ℚ) (oc : ℤ)
    (h : (2 : ℚ) ^ 30 ≤ size) :
    ((recommend_lifecycle_policy cfg name size oc).2
        = calculate_current_cost cfg size "standard" - size / 2 ^ 30 * unitCost name)
  ∧ (∀ r, (recommend_lifecycle_policy cfg name size oc).1 = some r →
        r.savings_percentage = savingsLabel name) := by
  rw [recommend_of_ge cfg name size oc h]
  constructor
  · dsimp only
    rw [chooseStrategy_estimated_cost, gb_cube]
  · intro r hr
    dsimp only at hr
    rw [Option.some.injEq] at hr
    rw [← hr, chooseStrategy_savings_percentage]

/-- C4 witness: a 3 GB bucket with a non-matching name. -/
theorem recommend_savings_formula_witness :
    (recommend_lifecycle_policy sampleConfig "data-bucket" (3 * 2 ^ 30) 0).2
      = calculate_current_cost sampleConfig (3 * 2 ^ 30) "standard"
          - 3 * 2 ^ 30 / 2 ^ 30 * unitCost "data-bucket" :=
  (recommend_savings_formula sampleConfig "data-bucket" (3 * 2 ^ 30) 0 (by norm_num)).1

/-- C5: `calculate_current_cost` computes size in bytes divided by 2^30 times
the configured rate of the storage class, and is linear in size: doubling the
size doubles the returned cost for any fixed storage class. -/
theorem calculate_cost_formula_linear (cfg : Config) (size : ℚ) (sc : String) :
    (calculate_current_cost cfg size "standard"
        = size / 2 ^ 30 * cfg.storage_costs "standard")
  ∧ (calculate_current_cost cfg size sc = size / 2 ^ 30 * cfg.storage_costs sc)
  ∧ (calculate_current_cost cfg (2 * size) sc
        = 2 * calculate_current_cost cfg size sc) := by
  simp only [calculate_current_cost]
  refine ⟨by rw [gb_cube], by rw [gb_cube], by ring⟩

lemma pyRound2_zero : pyRound2 0 = 0 := by
  have h0 : ⌊(0 : ℚ) * 100⌋ = 0 := by norm_num
  simp only [pyRound2, roundHalfEven, h0]
  norm_num

lemma processBucket_gate (cfg : Config) (b : BucketData) :
    (processBucket cfg b).recOpt =
      (if bucketQualifies b then
        (recommend_lifecycle_policy cfg b.name (get_bucket_size b.sizeResp)
          (get_bucket_object_count b.countResp)).1
       else none) := by
  simp only [processBucket, bucketQualifies]
  split_ifs <;> rfl

lemma bucketQualifies_size (b : BucketData) (h : bucketQualifies b = true) :
    (2 : ℚ) ^ 30 ≤ get_bucket_size b.sizeResp := by
  simp only [bucketQualifies, Bool.and_eq_true, decide_eq_true_eq] at h
  have h2 := h.2
  rw [lt_div_iff₀ (by positivity), gb_cube] at h2
  linarith

lemma processBucket_recOpt_isSome (cfg : Config) (b : BucketData) :
    ((processBucket cfg b).recOpt).isSome = bucketQualifies b := by
  rw [processBucket_gate]
  by_cases hq : bucketQualifies b = true
  · rw [if_pos hq, hq]
    exact recommend_fst_isSome cfg b.name _ _ (bucketQualifies_size b hq)
  · rw [Bool.not_eq_true] at hq
    rw [hq, if_neg (by simp)]
    rfl

lemma processBucket_not_qualifies (cfg : Config) (b : BucketData)
    (h : bucketQualifies b = false) :
    (processBucket cfg b).recOpt = none
  ∧ (processBucket cfg b).record.recommendation = "N/A"
  ∧ (processBucket cfg b).record.potential_savings = 0
  ∧ (processBucket cfg b).counted = false
  ∧ (processBucket cfg b).savings_added = 0 := by
  have hP : ¬ (get_bucket_lifecycle b.lifecycleResp = none ∧
      1 < get_bucket_size b.sizeResp / 1024 ^ 3) := by
    intro hc
    have ht : bucketQualifies b = true := by
      simp [bucketQualifies, hc.1, hc.2]
    rw [h] at ht
    exact Bool.false_ne_true ht
  simp [processBucket, hP, pyRound2_zero]

lemma processBucket_counted (cfg : Config) (b : BucketData) :
    (processBucket cfg b).counted = bucketQualifies b := by
  have hrec : (processBucket cfg b).counted = ((processBucket cfg b).recOpt).isSome := rfl
  rw [hrec, processBucket_recOpt_isSome]

lemma processBucket_savings_added_zero (cfg : Config) (b : BucketData)
    (h : bucketQualifies b = false) :
    (processBucket cfg b).savings_added = 0 :=
  (processBucket_not_qualifies cfg b h).2.2.2.2

lemma bucketQualifies_of_lifecycle (b : BucketData)
    (h : (get_bucket_lifecycle b.lifecycleResp).isSome = true) :
    bucketQualifies b = false := by
  simp only [bucketQualifies, h]
  rfl

lemma auditLoop_spec (cfg : Config) (bs : List BucketData) (t : AuditTotals) :
    ((auditLoop cfg bs t).1 = bs.map fun b => (processBucket cfg b).record)
  ∧ ((auditLoop cfg bs t).2.buckets_without_lifecycle
      = t.buckets_without_lifecycle + (bs.countP fun b => (processBucket cfg b).counted))
  ∧ ((auditLoop cfg bs t).2.total_savings
      = t.total_savings + (bs.map fun b => (processBucket cfg b).savings_added).sum) := by
  induction bs generalizing t with
  | nil => simp [auditLoop]
  | cons b rest ih =>
    simp only [auditLoop, List.map_cons, List.countP_cons, List.sum_cons]
    refine ⟨?_, ?_, ?_⟩
    · simp [(ih _).1]
    · rw [(ih _).2.1]
      dsimp only
      cases hc : (processBucket cfg b).counted <;> simp [hc] <;> omega
    · rw [(ih _).2.2]
      dsimp only
      ring

/-- C3: in `audit_buckets`, one record is produced per listed bucket in
order; a recommendation is computed, the savings total increased, and the
missing-policy counter incremented exactly when the bucket lacks a lifecycle
policy and has size strictly over 1 GB; a bucket with a lifecycle policy
never gets a recommendation (its record shows "N/A" and zero savings) and is
never counted. -/
theorem audit_gating (cfg : Config) (bs : List BucketData) :
    ((audit_buckets cfg bs).1 = bs.map fun b => (processBucket cfg b).record)
  ∧ ((audit_buckets cfg bs).2.buckets_without_lifecycle
      = bs.countP fun b => bucketQualifies b)
  ∧ ((audit_buckets cfg bs).2.total_savings
      = (bs.map fun b => (processBucket cfg b).savings_added).sum)
  ∧ (∀ b : BucketData, ((processBucket cfg b).recOpt).isSome = bucketQualifies b)
  ∧ (∀ b : BucketData, (processBucket cfg b).counted = bucketQualifies b)
  ∧ (∀ b : BucketData, bucketQualifies b = false →
        (processBucket cfg b).savings_added = 0)
  ∧ (∀ b : BucketData, (get_bucket_lifecycle b.lifecycleResp).isSome = true →
        (processBucket cfg b).record.recommendation = "N/A"
      ∧ (processBucket cfg b).record.potential_savings = 0
      ∧ (processBucket cfg b).counted = false) := by
  have hcnt : (fun b => (processBucket cfg b).counted) = fun b => bucketQualifies b :=
    funext fun b => processBucket_counted cfg b
  refine ⟨(auditLoop_spec cfg bs _).1, ?_, ?_, ?_, ?_, ?_, ?_⟩
  · rw [show (audit_buckets cfg bs).2 = (auditLoop cfg bs ⟨0, 0, 0, 0⟩).2 from rfl,
      (auditLoop_spec cfg bs _).2.1, hcnt]
    simp
  · rw [show (audit_buckets cfg bs).2 = (auditLoop cfg bs ⟨0, 0, 0, 0⟩).2 from rfl,
      (auditLoop_spec cfg bs _).2.2]
    ring
  · exact fun b => processBucket_recOpt_isSome cfg b
  · exact fun b => processBucket_counted cfg b
  · exact fun b h => processBucket_savings_added_zero cfg b h
  · intro b h
    have hq := bucketQualifies_of_lifecycle b h
    have hnq := processBucket_not_qualifies cfg b hq
    refine ⟨hnq.2.1, hnq.2.2.1, ?_⟩
    rw [processBucket_counted cfg b, hq]

/-- C3 witness: a 2 GB bucket that already has a lifecycle policy gets "N/A",
zero savings, and is not counted. -/
theorem audit_gating_witness :
    (processBucket sampleConfig sampleLifecycleBucket).record.recommendation = "N/A"
  ∧ (processBucket sampleConfig sampleLifecycleBucket).record.potential_savings = 0
  ∧ (processBucket sampleConfig sampleLifecycleBucket).counted = false :=
  (audit_gating sampleConfig [sampleLifecycleBucket]).2.2.2.2.2.2
    sampleLifecycleBucket rfl

lemma buildRules_length (i : ℕ) (ts : List Transition) :
    (buildRules i ts).length = ts.length := by
  induction ts generalizing i with
  | nil => rfl
  | cons t tl ih => simp [buildRules, ih]

lemma buildRules_getElem (i j : ℕ) (ts : List Transition) (t : Transition)
    (h : ts[j]? = some t) :
    (buildRules i ts)[j]? =
      some { id := "OptimizationRule" ++ toString (i + j + 1)
             status := "Enabled"
             transitions := [(t.days, t.storage_class)] } := by
  induction ts generalizing i j with
  | nil => simp at h
  | cons hd tl ih =>
    cases j with
    | zero =>
      simp only [List.getElem?_cons_zero, Option.some.injEq] at h
      subst h
      simp [buildRules]
    | succ j =>
      simp only [List.getElem?_cons_succ] at h
      have hrec := ih (i + 1) j h
      have harith : i + 1 + j + 1 = i + (j + 1) + 1 := by omega
      rw [harith] at hrec
      simpa [buildRules] using hrec

/-- C6: for a recommendation with N transitions, `generate_lifecycle_policy`
produces exactly N rules in transition order; the i-th rule (1-based) is
`OptimizationRule<i>` with status "Enabled" and a single transition carrying
that transition's day offset and storage class. (The embedding is a pure
function, so the operation has no side effects.) -/
theorem generate_policy_shape (recommendation : Recommendation) :
    ((generate_lifecycle_policy recommendation).Rules.length
        = recommendation.transitions.length)
  ∧ (∀ (i : ℕ) (t : Transition), recommendation.transitions[i]? = some t →
      (generate_lifecycle_policy recommendation).Rules[i]? =
        some { id := "OptimizationRule" ++ toString (i + 1)
               status := "Enabled"
               transitions := [(t.days, t.storage_class)] }) := by
  constructor
  · exact buildRules_length 0 recommendation.transitions
  · intro i t h
    have hrec := buildRules_getElem 0 i recommendation.transitions t h
    simpa [generate_lifecycle_policy] using hrec

/-- C6 witness: the single transition of the generic recommendation becomes
the single rule `OptimizationRule1`. -/
theorem generate_policy_shape_witness :
    (generate_lifecycle_policy sampleRecommendation).Rules[0]? =
      some { id := "OptimizationRule" ++ toString (0 + 1)
             status := "Enabled"
             transitions := [(30, "INTELLIGENT_TIERING")] } :=
  (generate_policy_shape sampleRecommendation).2 0 ⟨30, "INTELLIGENT_TIERING"⟩ rfl

/-- C7: with the dry-run flag set, `apply_lifecycle_policy` returns success
and leaves the provider state untouched, for every bucket name and policy
document. -/
theorem dry_run_apply (st : ProviderState) (bucket_name : String)
    (policy : PolicyDocument) :
    apply_lifecycle_policy st bucket_name policy true = (true, st) := rfl

/-- C8: the `audit` and `recommend` command modes behave identically: both
run the full audit over all listed buckets and, when an output path is
given, export those same records to it. -/
theorem audit_recommend_modes_equal (cfg : Config) (bs : List BucketData)
    (out bucket : Option String) (dr : Bool) :
    (main_dispatch cfg bs ⟨Mode.audit, out, bucket, dr⟩
        = main_dispatch cfg bs ⟨Mode.recommend, out, bucket, dr⟩)
  ∧ ((main_dispatch cfg bs ⟨Mode.audit, out, bucket, dr⟩).results
        = some (audit_buckets cfg bs))
  ∧ ((main_dispatch cfg bs ⟨Mode.audit, out, bucket, dr⟩).exported
        = out.map fun path => (path, (audit_buckets cfg bs).1)) :=
  ⟨rfl, rfl, rfl⟩

/-- C9: every per-bucket provider error during the lifecycle, size or
object-count read degrades to a safe default (absent lifecycle state, zero
metrics — also when the lookback window has no datapoint), and the audit
completes with exactly one record per listed bucket. -/
theorem per_bucket_errors_degrade (cfg : Config) (bs : List BucketData) :
    (∀ e, get_bucket_lifecycle (.otherError e) = none)
  ∧ get_bucket_lifecycle .noSuchConfiguration = none
  ∧ (∀ e, get_bucket_size (.err e) = 0)
  ∧ get_bucket_size (.ok []) = 0
  ∧ (∀ e, get_bucket_object_count (.err e) = 0)
  ∧ get_bucket_object_count (.ok []) = 0
  ∧ (audit_buckets cfg bs).1.length = bs.length := by
  refine ⟨fun e => rfl, rfl, fun e => rfl, rfl, fun e => rfl, rfl, ?_⟩
  rw [show (audit_buckets cfg bs).1 = (auditLoop cfg bs ⟨0, 0, 0, 0⟩).1 from rfl,
    (auditLoop_spec cfg bs _).1, List.length_map]

/-- C10: at exactly 2^30 bytes, `recommend_lifecycle_policy` itself returns a
recommendation (its check is strict less-than 1 GB), but the audit loop's
gate requires strictly more than 1 GB, so such a bucket without a lifecycle
policy gets no recommendation call, shows "N/A" with zero savings, and is not
counted — the two checks disagree at the boundary. -/
theorem threshold_boundary (cfg : Config) (name : String) (oc : ℤ) :
    (((recommend_lifecycle_policy cfg name (2 ^ 30) oc).1).isSome = true)
  ∧ (∀ b : BucketData,
      get_bucket_size b.sizeResp = 2 ^ 30 →
      get_bucket_lifecycle b.lifecycleResp = none →
        (processBucket cfg b).recOpt = none
      ∧ (processBucket cfg b).record.recommendation = "N/A"
      ∧ (processBucket cfg b).record.potential_savings = 0
      ∧ (processBucket cfg b).counted = false) := by
  constructor
  · exact recommend_fst_isSome cfg name (2 ^ 30) oc (le_refl _)
  · intro b hsz hlc
    have hq : bucketQualifies b = false := by
      have hnot : ¬ ((1 : ℚ) < get_bucket_size b.sizeResp / 1024 ^ 3) := by
        rw [hsz, gb_cube]
        norm_num
      simp [bucketQualifies, hnot]
    have hnq := processBucket_not_qualifies cfg b hq
    refine ⟨hnq.1, hnq.2.1, hnq.2.2.1, ?_⟩
    rw [processBucket_counted cfg b, hq]

/-- C10 witness: a 1 GB lifecycle-less bucket is skipped by the audit gate. -/
theorem threshold_boundary_witness :
    (processBucket sampleConfig boundaryBucket).recOpt = none
  ∧ (processBucket sampleConfig boundaryBucket).record.recommendation = "N/A"
  ∧ (processBucket sampleConfig boundaryBucket).record.potential_savings = 0
  ∧ (processBucket sampleConfig boundaryBucket).counted = false :=
  (threshold_boundary sampleConfig "logs-at-threshold" 0).2 boundaryBucket rfl rfl
